import Mathlib

/-
Verification development for the System Maintenance Toolkit
(src/system_maintenance_toolkit.py).  The Python program is shallowly
embedded: pure data (logger name tables, command tables) is transcribed
directly; each GUI operation is embedded as a function from an abstract
environment (privilege probe, filesystem contents, child-process
behaviour) to the list of observable effects it performs, in program
order; the log sink is embedded as explicit state passing over a map
from file names to lines.
-/

namespace Toolkit

/-- Python `str.lower()` restricted to the ASCII names used by the program. -/
def pyLower (s : String) : String :=
  String.mk (s.data.map Char.toLower)

/-- Python `str.replace(old, new)` for single-character patterns, which is all
the program uses (`' ' -> '_'` and `'/' -> '_'`). -/
def replaceChar (old new : Char) (s : String) : String :=
  String.mk (s.data.map (fun c => if c = old then new else c))

/-- Section labels and their log file names (source lines 26-30). -/
def SECTION_LOG_FILES : List (String × String) :=
  [("System Health Check", "system_health_check.log"),
   ("Disk Cleanup", "disk_cleanup.log"),
   ("Defragment and Optimize Drives", "defragment.log")]

/-- Per-command log file names within System Health Check (source lines 33-40). -/
def COMMAND_LOG_FILES : List (String × String) :=
  [("checkhealth", "checkhealth.log"),
   ("scanhealth", "scanhealth.log"),
   ("Restorehealth", "Restorehealth.log"),
   ("sfc_scannow", "sfc_scannow.log"),
   ("AnalyzeComponentStore", "AnalyzeComponentStore.log"),
   ("StartComponentCleanup", "StartComponentCleanup.log")]

/-- Logger-registry key for a section label (source lines 132-137):
"Defragment and Optimize Drives" maps to "defragment", the others to
`label.lower().replace(' ', '_')`. -/
def sectionLoggerName (s : String) : String :=
  if s = "Defragment and Optimize Drives" then "defragment"
  else replaceChar ' ' '_' (pyLower s)

/-- Logger-registry key for a health-check command name (source line 142):
`command.lower().replace('/', '_')`. -/
def commandLoggerName (c : String) : String :=
  replaceChar '/' '_' (pyLower c)

/-- The (logger name, backing file) pairs created by `initialize_loggers`
(source lines 125-148), in creation order: section loggers, then
per-command loggers, then the error logger. -/
def loggerSpecs : List (String × String) :=
  SECTION_LOG_FILES.map (fun p => (sectionLoggerName p.1, p.2)) ++
  COMMAND_LOG_FILES.map (fun p => (commandLoggerName p.1, p.2)) ++
  [("error_logger", "error.log")]

/-- The keys present in the logger registry `self.loggers` after
`initialize_loggers` runs. -/
def loggerKeys : List String := loggerSpecs.map Prod.fst

/-- State of the log sink: the files present in the log directory
(file name to lines, in creation order) and the logger names that
currently own an open `FileHandler`. -/
structure SinkState where
  files : List (String × List String)
  handlers : List String
deriving DecidableEq

/-- Replace the binding of `f` in an association list, or append it. -/
def updFile : List (String × List String) → String → List String →
    List (String × List String)
  | [], f, ls => [(f, ls)]
  | (g, old) :: rest, f, ls =>
      if g = f then (g, ls) :: rest else (g, old) :: updFile rest f ls

/-- `get_logger` (source lines 47-72): if the named logger has no handler
yet, attach one; attaching a `FileHandler` in append mode creates the
backing file (empty) when absent and keeps it when present. -/
def get_logger (name file : String) (s : SinkState) : SinkState :=
  if s.handlers.contains name then s
  else
    { handlers := s.handlers ++ [name],
      files :=
        match s.files.lookup file with
        | some _ => s.files
        | none => s.files ++ [(file, [])] }

/-- `initialize_loggers` (source lines 125-148): create every logger in
`loggerSpecs`, in order. -/
def initLoggers (s : SinkState) : SinkState :=
  loggerSpecs.foldl (fun st p => get_logger p.1 p.2 st) s

/-- Step 1 of `clear_all_logs` (source lines 154-163): close and remove
every `FileHandler`.  (The `error_logger.debug` calls there are filtered
out by the INFO level and write nothing.) -/
def closeAllHandlers (s : SinkState) : SinkState :=
  { s with handlers := [] }

/-- Step 2 of `clear_all_logs` (source lines 165-174): delete every file
in the log directory.  (The `error_logger.info` calls there find a
handlerless logger and write nothing.) -/
def deleteAllLogFiles (s : SinkState) : SinkState :=
  { s with files := [] }

/-- `clear_all_logs` (source lines 150-180): close all handlers, delete
all log files, then reinitialize the loggers. -/
def clear_all_logs (s : SinkState) : SinkState :=
  initLoggers (deleteAllLogFiles (closeAllHandlers s))

/-- One formatted log line, `<timestamp> - <level> - <message>`
(source line 67), with the timestamp abstract. -/
def fmtLine (ts level msg : String) : String :=
  ts ++ " - " ++ level ++ " - " ++ msg

/-- A write through a named channel: appends the line to the channel's
backing file when the channel has an open handler; a handlerless or
unknown channel drops the line. -/
def writeLog (channel line : String) (s : SinkState) : SinkState :=
  if s.handlers.contains channel then
    match loggerSpecs.lookup channel with
    | some file =>
        { s with
          files := updFile s.files file (((s.files.lookup file).getD []) ++ [line]) }
    | none => s
  else s

/-- The three info panels (ScrolledText widgets), one per section. -/
inductive Panel
  | healthCheck
  | diskCleanup
  | defrag
deriving DecidableEq

/-- The three progress bars, one per section. -/
inductive Bar
  | healthBar
  | cleanupBar
  | defragBar
deriving DecidableEq

/-- One observable effect of an operation, in program order.  `logMsg`,
`launch` and `deleteEntry` are world effects; `enqueuePanelMsg` and
`enqueueResetBar` put a deferred request on the GUI queue; `clearPanel`,
`setBarMax`, `setBarValue`, `addBarValue` and `updateIdletasks` act on
UI-owned widgets directly on the thread executing the operation. -/
inductive Eff
  | logMsg (channel level msg : String)
  | enqueuePanelMsg (p : Panel) (msg : String)
  | enqueueResetBar (b : Bar) (delayMs : Nat)
  | clearPanel (p : Panel)
  | setBarMax (b : Bar) (v : ℚ)
  | setBarValue (b : Bar) (v : ℚ)
  | addBarValue (b : Bar) (v : ℚ)
  | launch (cmd : String)
  | deleteEntry (path : String)
  | updateIdletasks
deriving DecidableEq

/-- An event on the GUI queue: either an info-panel append
(`update_info_panel`) or a delayed progress-bar reset
(`reset_progress_bar_with_delay`). -/
inductive UIEvent
  | updatePanel (p : Panel) (msg : String)
  | resetBarDelay (b : Bar) (delayMs : Nat)
deriving DecidableEq

/-- `is_admin` (source lines 75-85): the platform probe either returns a
boolean or raises; a raised probe is caught and reported as `false`. -/
def is_admin (probe : Option Bool) : Bool :=
  probe.getD false

/-- The error-log line written by `ensure_admin` on denial (source line 673). -/
def adminLogLine : String :=
  "Admin privileges are required to perform this operation."

/-- The info-panel message enqueued by `ensure_admin` on denial
(source lines 674-677). -/
def adminPanelMsg : String :=
  "Admin privileges are required to perform this operation.\nPlease restart the program as an administrator."

/-- The effects of a failed privilege gate (source lines 672-682): an
error-channel log entry, then a message enqueued for the System Health
Check info panel (always that panel, whatever operation was denied). -/
def ensureAdminEffects : List Eff :=
  [Eff.logMsg "error_logger" "ERROR" adminLogLine,
   Eff.enqueuePanelMsg Panel.healthCheck adminPanelMsg]

/-- `ensure_admin` (source lines 667-683): returns its effects and
whether the caller may proceed. -/
def ensure_admin (probe : Option Bool) : List Eff × Bool :=
  if is_admin probe then ([], true) else (ensureAdminEffects, false)

/-- Concatenate a list of effect lists (used to embed Python loops that
emit effects per element). -/
def concatAll : List (List Eff) → List Eff
  | [] => []
  | l :: ls => l ++ concatAll ls

/-- How deleting one filesystem entry turns out (source lines 476-527):
removed, `PermissionError` with winerror 32 (in use), other
`PermissionError` (denied), or another `OSError`. -/
inductive DelOutcome
  | deleted
  | inUse
  | permissionDenied
  | osError (emsg : String)
deriving DecidableEq

/-- Whether the walk yields the entry as a file or a directory. -/
inductive EntryKind
  | file
  | dir
deriving DecidableEq

/-- One filesystem entry met by the cleanup walk, with the outcome the
environment assigns to its deletion attempt. -/
structure FsEntry where
  path : String
  kind : EntryKind
  outcome : DelOutcome
deriving DecidableEq

/-- One configured cleanup path: `entries = none` models a path that is
unset or fails `os.path.exists`; otherwise the entries the walk yields,
in walk order (files then directories per visited folder). -/
structure CleanupPath where
  path : String
  entries : Option (List FsEntry)
deriving DecidableEq

/-- Effects of one deletion attempt (source lines 474-527): a successful
delete logs one line (no panel message); in-use, permission-denied and
other-OSError each enqueue a panel message and log one line. -/
def entryEffs (ent : FsEntry) : List Eff :=
  match ent.outcome with
  | DelOutcome.deleted =>
      [Eff.deleteEntry ent.path,
       Eff.logMsg "disk_cleanup" "INFO"
         ((match ent.kind with
           | EntryKind.file => "Deleted file: "
           | EntryKind.dir => "Deleted directory: ") ++ ent.path)]
  | DelOutcome.inUse =>
      [Eff.enqueuePanelMsg Panel.diskCleanup
         ("In use by another program: " ++ ent.path ++ "\n"),
       Eff.logMsg "disk_cleanup" "WARNING" ("In use by another program: " ++ ent.path)]
  | DelOutcome.permissionDenied =>
      [Eff.enqueuePanelMsg Panel.diskCleanup
         ("Permission denied for " ++ ent.path ++ "\n"),
       Eff.logMsg "disk_cleanup" "ERROR" ("Permission denied for " ++ ent.path)]
  | DelOutcome.osError emsg =>
      [Eff.enqueuePanelMsg Panel.diskCleanup
         ("Error deleting " ++ ent.path ++ ": " ++ emsg ++ "\n"),
       Eff.logMsg "disk_cleanup" "ERROR" ("Error deleting " ++ ent.path ++ ": " ++ emsg)]

/-- Effects of processing one configured path (source lines 471-533). -/
def pathEffs (p : CleanupPath) : List Eff :=
  match p.entries with
  | some ents => concatAll (ents.map entryEffs)
  | none =>
      [Eff.enqueuePanelMsg Panel.diskCleanup
         ("Path not found or invalid: " ++ p.path ++ "\n"),
       Eff.logMsg "disk_cleanup" "WARNING" ("Path not found or invalid: " ++ p.path)]

/-- Concatenate per-path entry lists. -/
def concatAllEntries : List (List FsEntry) → List FsEntry
  | [] => []
  | l :: ls => l ++ concatAllEntries ls

/-- The entries processed across all configured paths, in order. -/
def allEntriesOf (ps : List CleanupPath) : List FsEntry :=
  concatAllEntries (ps.map (fun p => p.entries.getD []))

/-- `deleted_files` (source line 464): paths whose deletion succeeded. -/
def deletedOf (ents : List FsEntry) : List String :=
  ents.filterMap (fun en =>
    if en.outcome = DelOutcome.deleted then some en.path else none)

/-- `in_use_files` (source line 465). -/
def inUseOf (ents : List FsEntry) : List String :=
  ents.filterMap (fun en =>
    if en.outcome = DelOutcome.inUse then some en.path else none)

/-- `permission_denied_files` (source line 466). -/
def permDeniedOf (ents : List FsEntry) : List String :=
  ents.filterMap (fun en =>
    if en.outcome = DelOutcome.permissionDenied then some en.path else none)

/-- The terminal summary message (source lines 541-546). -/
def cleanupSummary (nd niu npd : Nat) : String :=
  "Disk cleanup completed\n" ++
  "Deleted: " ++ Nat.repr nd ++ "\n" ++
  "In Use: " ++ Nat.repr niu ++ "\n" ++
  "Permission Denied: " ++ Nat.repr npd

/-- Behaviour of one child process in `defragment_drives`: how many 100 ms
polling intervals it stays alive (capped by the loop at 100), its true
return code, and its stderr text. -/
structure DriveRun where
  aliveFor : Nat
  returncode : Int
  stderrText : String
deriving DecidableEq

/-- Environment for one `defragment_drives` run: the behaviour of the two
drive child processes (`drives = ["C:", "D:"]`, source line 376). -/
structure DefragEnv where
  driveC : DriveRun
  driveD : DriveRun
deriving DecidableEq

/-- Outcome the environment assigns to one health-check command:
it ran and exited with a return code and output lines, it hit the
3600 s timeout, or `subprocess.run` raised. -/
inductive CmdOutcome
  | ran (returncode : Int) (outLines : List String)
  | timeout
  | raised (emsg : String)
deriving DecidableEq

/-- Environment for one `start_health_check` run: per-command outcomes,
indexed in command order. -/
structure HealthEnv where
  outcomes : List CmdOutcome
deriving DecidableEq

/-- Environment of one program run: the privilege probe plus the
per-operation environments. -/
structure Env where
  adminProbe : Option Bool
  cleanup : List CleanupPath
  defrag : DefragEnv
  health : HealthEnv
deriving DecidableEq

/-- `disk_cleanup` (source lines 448-555): gate on `ensure_admin`, then
clear the panel, announce the start, process every configured path,
log the four completion lines, enqueue the summary, set the bar to 100,
flush idle tasks and enqueue the 1000 ms bar reset. -/
def disk_cleanup (env : Env) : List Eff :=
  let gate := ensure_admin env.adminProbe
  if gate.2 then
    gate.1 ++
    [Eff.clearPanel Panel.diskCleanup,
     Eff.enqueuePanelMsg Panel.diskCleanup "Starting Disk Cleanup...\n"] ++
    concatAll (env.cleanup.map pathEffs) ++
    [Eff.logMsg "disk_cleanup" "INFO" "Disk Cleanup Completed",
     Eff.logMsg "disk_cleanup" "INFO"
       ("Deleted Files: " ++ Nat.repr (deletedOf (allEntriesOf env.cleanup)).length),
     Eff.logMsg "disk_cleanup" "INFO"
       ("In Use Files: " ++ Nat.repr (inUseOf (allEntriesOf env.cleanup)).length),
     Eff.logMsg "disk_cleanup" "INFO"
       ("Permission Denied Files: " ++
        Nat.repr (permDeniedOf (allEntriesOf env.cleanup)).length),
     Eff.enqueuePanelMsg Panel.diskCleanup
       (cleanupSummary (deletedOf (allEntriesOf env.cleanup)).length
          (inUseOf (allEntriesOf env.cleanup)).length
          (permDeniedOf (allEntriesOf env.cleanup)).length),
     Eff.setBarValue Bar.cleanupBar 100,
     Eff.updateIdletasks,
     Eff.enqueueResetBar Bar.cleanupBar 1000]
  else gate.1

/-- The per-step message of the synthetic-progress loop (source line 399). -/
def stepMsg (drive : String) (step : Nat) : String :=
  "Defragmenting " ++ drive ++ ": Step " ++ Nat.repr (step + 1) ++ "/" ++ Nat.repr 100

/-- Effects of one iteration of the synthetic-progress loop
(source lines 394-402): set the bar to `i*100 + step + 1`, enqueue the
step message, log it, flush idle tasks. -/
def stepEffs (i : Nat) (drive : String) (step : Nat) : List Eff :=
  [Eff.setBarValue Bar.defragBar ((i * 100 + (step + 1) : Nat) : ℚ),
   Eff.enqueuePanelMsg Panel.defrag (stepMsg drive step),
   Eff.logMsg "defragment" "INFO" (stepMsg drive step),
   Eff.updateIdletasks]

/-- The polling loop `for step in range(100)` (source lines 394-402):
at each iteration the child is polled first and the loop breaks once it
has exited; `alive` is the number of polls that still find it running. -/
def pollLoop (i : Nat) (drive : String) (alive : Nat) : Nat → Nat → List Eff
  | 0, _ => []
  | fuel + 1, step =>
      if step < alive then stepEffs i drive step ++ pollLoop i drive alive fuel (step + 1)
      else []

/-- The post-`communicate` report (source lines 404-411): branch on the
child's true return code. -/
def reportEffs (drive : String) (rc : Int) (stderrText : String) : List Eff :=
  if rc = 0 then
    [Eff.enqueuePanelMsg Panel.defrag ("Optimized drive: " ++ drive),
     Eff.logMsg "defragment" "INFO" ("Optimized drive: " ++ drive)]
  else
    [Eff.enqueuePanelMsg Panel.defrag
       ("Failed to optimize drive " ++ drive ++ ": " ++ stderrText),
     Eff.logMsg "defragment" "ERROR"
       ("Failed to optimize drive " ++ drive ++ ": " ++ stderrText)]

/-- One drive's block of the defrag loop (source lines 382-415): launch
the command, run the polling loop, then report on the true exit status. -/
def driveBlock (i : Nat) (drive : String) (r : DriveRun) : List Eff :=
  Eff.launch ("defrag " ++ drive ++ " /OPTIMIZE") ::
  (pollLoop i drive r.aliveFor 100 0 ++ reportEffs drive r.returncode r.stderrText)

/-- `defragment_drives` (source lines 364-428): no privilege gate; clear
the panel, announce, set the bar maximum to `len(drives) * 100 = 200`,
log the start, process drive C then drive D, log and announce
completion, set the bar value to the constant 100, flush idle tasks and
enqueue the 1000 ms bar reset. -/
def defragment_drives (env : Env) : List Eff :=
  [Eff.clearPanel Panel.defrag,
   Eff.enqueuePanelMsg Panel.defrag "Initialized Defragment and Optimize Drives",
   Eff.setBarMax Bar.defragBar 200,
   Eff.logMsg "defragment" "INFO" "Starting Defragmentation and Optimization"] ++
  driveBlock 0 "C:" env.defrag.driveC ++
  driveBlock 1 "D:" env.defrag.driveD ++
  [Eff.logMsg "defragment" "INFO" "Defragmentation and Optimization Completed",
   Eff.enqueuePanelMsg Panel.defrag "Defragmentation and optimization completed.",
   Eff.setBarValue Bar.defragBar 100,
   Eff.updateIdletasks,
   Eff.enqueueResetBar Bar.defragBar 1000]

/-- The health-check command table (source lines 562-569), in order. -/
def healthCommands : List (String × String) :=
  [("checkhealth", "Dism.exe /online /Cleanup-Image /checkhealth"),
   ("scanhealth", "Dism.exe /online /Cleanup-Image /scanhealth"),
   ("Restorehealth", "Dism.exe /online /Cleanup-Image /Restorehealth"),
   ("sfc_scannow", "sfc /scannow"),
   ("AnalyzeComponentStore", "Dism.exe /Online /Cleanup-Image /AnalyzeComponentStore"),
   ("StartComponentCleanup", "Dism.exe /Online /Cleanup-Image /StartComponentCleanup")]

/-- The registry keys the local logger dictionary subscripts, exactly as
written at source lines 573-578 and in evaluation order. -/
def healthLoggerLookupKeys : List String :=
  ["checkhealth", "scanhealth", "restorehealth", "sfc_scannow",
   "analyzeComponentStore", "StartComponentCleanup"]

/-- The first subscripted key absent from the logger registry: the key
whose lookup raises `KeyError` while the local dictionary at source
lines 572-579 is being built (`none` would mean the dictionary builds). -/
def firstMissingLoggerKey : Option String :=
  healthLoggerLookupKeys.find? (fun k => ! loggerKeys.contains k)

/-- How one `start_health_check` invocation ends. -/
inductive RunTermination
  | abortedNoPrivilege
  | keyError (key : String)
  | finishedLoop
deriving DecidableEq

/-- One command's block of the health-check loop (source lines 592-653),
for the counterfactual run in which the logger dictionary builds:
announce the command, launch it, log its output and its
success/failure line, or on timeout / unhandled error log and stop;
the `finally` block adds `100/6` to the bar either way.  Returns the
effects and whether the loop continues. -/
def healthCmdBlock (i : Nat) (cmd channel : String) (oc : CmdOutcome) :
    List Eff × Bool :=
  let execMsg := "Executing command " ++ Nat.repr i ++ "/6: " ++ cmd
  match oc with
  | CmdOutcome.ran rc outLines =>
      (Eff.enqueuePanelMsg Panel.healthCheck execMsg ::
       Eff.launch cmd ::
       (outLines.map (fun l => Eff.logMsg channel "INFO" l) ++
        (if rc = 0 then
          [Eff.enqueuePanelMsg Panel.healthCheck
             ("Command " ++ Nat.repr i ++ " completed successfully."),
           Eff.logMsg channel "INFO"
             ("Command " ++ Nat.repr i ++ " completed successfully.")]
         else
          [Eff.enqueuePanelMsg Panel.healthCheck
             ("Command " ++ Nat.repr i ++ " failed with error code: " ++ toString rc),
           Eff.logMsg channel "ERROR"
             ("Command " ++ Nat.repr i ++ " failed with error code: " ++ toString rc)]) ++
        [Eff.addBarValue Bar.healthBar (100 / 6), Eff.updateIdletasks]), true)
  | CmdOutcome.timeout =>
      ([Eff.enqueuePanelMsg Panel.healthCheck execMsg,
        Eff.launch cmd,
        Eff.enqueuePanelMsg Panel.healthCheck
          ("Command " ++ Nat.repr i ++ " timed out."),
        Eff.logMsg channel "ERROR" ("Command " ++ Nat.repr i ++ " timed out."),
        Eff.addBarValue Bar.healthBar (100 / 6), Eff.updateIdletasks], false)
  | CmdOutcome.raised m =>
      ([Eff.enqueuePanelMsg Panel.healthCheck execMsg,
        Eff.launch cmd,
        Eff.enqueuePanelMsg Panel.healthCheck
          ("Error executing command " ++ Nat.repr i ++ ": " ++ m),
        Eff.logMsg channel "ERROR" ("Error executing command " ++ Nat.repr i ++ ": " ++ m),
        Eff.addBarValue Bar.healthBar (100 / 6), Eff.updateIdletasks], false)

/-- The health-check loop over the remaining commands, 1-based index. -/
def healthLoop (env : HealthEnv) : Nat → List ((String × String) × String) → List Eff
  | _, [] => []
  | i, (p, ch) :: rest =>
      let blk := healthCmdBlock i p.2 ch (env.outcomes.getD (i - 1) (CmdOutcome.ran 0 []))
      if blk.2 then blk.1 ++ healthLoop env (i + 1) rest else blk.1

/-- The loop part of `start_health_check` after the logger dictionary
would have built (source lines 581-665). -/
def healthLoopTrace (env : HealthEnv) : List Eff :=
  [Eff.clearPanel Panel.healthCheck,
   Eff.enqueuePanelMsg Panel.healthCheck "Initializing System Health Check..."] ++
  healthLoop env 1 (healthCommands.zip healthLoggerLookupKeys) ++
  [Eff.enqueuePanelMsg Panel.healthCheck "System Health Check completed.",
   Eff.setBarValue Bar.healthBar 100,
   Eff.updateIdletasks,
   Eff.enqueueResetBar Bar.healthBar 1000]

/-- `start_health_check` (source lines 557-665): gate on `ensure_admin`;
past the gate, the local logger dictionary at lines 572-579 is built by
subscripting the registry with `healthLoggerLookupKeys`, and the first
missing key raises `KeyError` on the worker thread before any further
effect; only if every key resolved would the command loop run. -/
def start_health_check (env : Env) : List Eff × RunTermination :=
  let gate := ensure_admin env.adminProbe
  if gate.2 then
    match firstMissingLoggerKey with
    | some k => (gate.1, RunTermination.keyError k)
    | none => (gate.1 ++ healthLoopTrace env.health, RunTermination.finishedLoop)
  else (gate.1, RunTermination.abortedNoPrivilege)

/-- The drain loop of `process_gui_queue` (source lines 183-185):
`while not empty: get and apply`, FIFO.  Returns the applied events in
application order and the queue left behind. -/
def drainAll : List UIEvent → List UIEvent → List UIEvent × List UIEvent
  | [], applied => (applied, [])
  | e :: rest, applied => drainAll rest (applied ++ [e])

/-- `process_gui_queue` (source lines 182-186): drain every queued event
in FIFO order, then reschedule itself 100 ms later. -/
def process_gui_queue (q : List UIEvent) : (List UIEvent × List UIEvent) × Nat :=
  (drainAll q [], 100)

/-- Effects that act on UI-owned widget state directly on the executing
thread (as opposed to enqueuing a request on the GUI queue). -/
def isDirectUIMutation : Eff → Bool
  | Eff.clearPanel _ => true
  | Eff.setBarMax _ _ => true
  | Eff.setBarValue _ _ => true
  | Eff.addBarValue _ _ => true
  | Eff.updateIdletasks => true
  | _ => false

/-- Effects that launch an external command. -/
def isLaunch : Eff → Bool
  | Eff.launch _ => true
  | _ => false

/-- Effects that delete a filesystem entry. -/
def isDeleteFx : Eff → Bool
  | Eff.deleteEntry _ => true
  | _ => false

/-- Log effects at ERROR level. -/
def isErrorLevelLog : Eff → Bool
  | Eff.logMsg _ lvl _ => lvl = "ERROR"
  | _ => false

/-- Log effects written to the given channel. -/
def logsToChannel (ch : String) : Eff → Bool
  | Eff.logMsg c _ _ => c = ch
  | _ => false

/-- Effects that touch the given panel (append request or direct clear). -/
def targetsPanel (p : Panel) : Eff → Bool
  | Eff.enqueuePanelMsg q _ => q = p
  | Eff.clearPanel q => q = p
  | _ => false

/-- The values assigned to the given bar, in assignment order. -/
def barSetsOf (b : Bar) (t : List Eff) : List ℚ :=
  t.filterMap (fun e =>
    match e with
    | Eff.setBarValue b' v => if b' = b then some v else none
    | _ => none)

/-- The maxima assigned to the given bar, in assignment order. -/
def barMaxesOf (b : Bar) (t : List Eff) : List ℚ :=
  t.filterMap (fun e =>
    match e with
    | Eff.setBarMax b' v => if b' = b then some v else none
    | _ => none)

/-- A defrag environment whose children exit before the first poll and
return 0. -/
def defragZero : DefragEnv := ⟨⟨0, 0, ""⟩, ⟨0, 0, ""⟩⟩

/-- An elevated run with trivially behaved children and no cleanup paths. -/
def envZero : Env :=
  { adminProbe := some true, cleanup := [], defrag := defragZero, health := ⟨[]⟩ }

/-- A run where the privilege probe reports no elevation. -/
def envDenied : Env :=
  { adminProbe := some false, cleanup := [], defrag := defragZero, health := ⟨[]⟩ }

/-- An elevated run whose second health-check command would hit the
timeout if launched. -/
def envTimeoutStep2 : Env :=
  { adminProbe := some true, cleanup := [], defrag := defragZero,
    health := ⟨[CmdOutcome.ran 0 [], CmdOutcome.timeout, CmdOutcome.ran 0 [],
                CmdOutcome.ran 0 [], CmdOutcome.ran 0 [], CmdOutcome.ran 0 []]⟩ }

/-- An elevated run whose fourth health-check command would exit 1 and the
other five would exit 0 if launched. -/
def envCmd4Fails : Env :=
  { adminProbe := some true, cleanup := [], defrag := defragZero,
    health := ⟨[CmdOutcome.ran 0 [], CmdOutcome.ran 0 [], CmdOutcome.ran 0 [],
                CmdOutcome.ran 1 [], CmdOutcome.ran 0 [], CmdOutcome.ran 0 []]⟩ }

/-- The five-entry cleanup scenario: three deletable entries, one locked
by another process, one permission-denied. -/
def scenarioEntries : List FsEntry :=
  [⟨"t1.tmp", EntryKind.file, DelOutcome.deleted⟩,
   ⟨"t2.tmp", EntryKind.file, DelOutcome.deleted⟩,
   ⟨"t3.tmp", EntryKind.file, DelOutcome.deleted⟩,
   ⟨"locked.tmp", EntryKind.file, DelOutcome.inUse⟩,
   ⟨"secret.tmp", EntryKind.file, DelOutcome.permissionDenied⟩]

/-- An elevated cleanup run over one directory holding `scenarioEntries`. -/
def envCleanup : Env :=
  { adminProbe := some true,
    cleanup := [⟨"C:\\Temp", some scenarioEntries⟩],
    defrag := defragZero, health := ⟨[]⟩ }

/-! Helper lemmas. -/

/-- `barSetsOf` distributes over trace concatenation. -/
theorem barSetsOf_append (b : Bar) (t u : List Eff) :
    barSetsOf b (t ++ u) = barSetsOf b t ++ barSetsOf b u :=
  List.filterMap_append ..

/-- A launched command contributes no bar assignment. -/
theorem barSetsOf_cons_launch (b : Bar) (s : String) (t : List Eff) :
    barSetsOf b (Eff.launch s :: t) = barSetsOf b t := rfl

/-- The report after `communicate` contributes no bar assignment. -/
theorem reportEffs_barSets (b : Bar) (d : String) (rc : Int) (st : String) :
    barSetsOf b (reportEffs d rc st) = [] := by
  unfold reportEffs
  split <;> rfl

/-- The synthetic-progress loop sets the defrag bar to the consecutive
values `i*100+step+1, i*100+step+2, ...`, one per iteration the child is
still alive, for at most `fuel` iterations. -/
theorem pollLoop_barSets (i : Nat) (d : String) (alive : Nat) :
    ∀ fuel step, barSetsOf Bar.defragBar (pollLoop i d alive fuel step) =
      (List.range' (i * 100 + step + 1) (min (alive - step) fuel)).map
        (fun n : ℕ => (n : ℚ)) := by
  intro fuel
  induction fuel with
  | zero =>
      intro step
      simp [pollLoop, barSetsOf]
  | succ fuel ih =>
      intro step
      by_cases h : step < alive
      · have hmin : min (alive - step) (fuel + 1) = min (alive - (step + 1)) fuel + 1 := by
          omega
        rw [pollLoop, if_pos h, barSetsOf_append, ih (step + 1), hmin,
          List.range'_succ]
        rfl
      · have hmin : min (alive - step) (fuel + 1) = 0 := by omega
        rw [pollLoop, if_neg h, hmin]
        rfl

/-- Bar assignments of one drive block: the loop values only. -/
theorem driveBlock_barSets (i : Nat) (d : String) (r : DriveRun) :
    barSetsOf Bar.defragBar (driveBlock i d r) =
      (List.range' (i * 100 + 1) (min r.aliveFor 100)).map (fun n : ℕ => (n : ℚ)) := by
  unfold driveBlock
  rw [barSetsOf_cons_launch, barSetsOf_append, pollLoop_barSets,
    reportEffs_barSets, List.append_nil]
  norm_num

/-- `barMaxesOf` distributes over trace concatenation. -/
theorem barMaxesOf_append (b : Bar) (t u : List Eff) :
    barMaxesOf b (t ++ u) = barMaxesOf b t ++ barMaxesOf b u :=
  List.filterMap_append ..

/-- The synthetic-progress loop never reassigns the bar maximum. -/
theorem pollLoop_barMaxes (i : Nat) (d : String) (alive : Nat) :
    ∀ fuel step, barMaxesOf Bar.defragBar (pollLoop i d alive fuel step) = [] := by
  intro fuel
  induction fuel with
  | zero => intro step; rfl
  | succ fuel ih =>
      intro step
      by_cases h : step < alive
      · rw [pollLoop, if_pos h, barMaxesOf_append, ih (step + 1)]
        rfl
      · rw [pollLoop, if_neg h]
        rfl

/-- A drive block never reassigns the bar maximum. -/
theorem driveBlock_barMaxes (i : Nat) (d : String) (r : DriveRun) :
    barMaxesOf Bar.defragBar (driveBlock i d r) = [] := by
  unfold driveBlock
  show barMaxesOf Bar.defragBar (pollLoop i d r.aliveFor 100 0 ++
    reportEffs d r.returncode r.stderrText) = []
  rw [barMaxesOf_append, pollLoop_barMaxes]
  unfold reportEffs
  split <;> rfl

/-- If every loop iteration contributes no `p`-effect, neither does the
whole polling loop. -/
theorem pollLoop_countP (p : Eff → Bool) (i : Nat) (d : String) (alive : Nat)
    (hstep : ∀ s, (stepEffs i d s).countP p = 0) :
    ∀ fuel step, (pollLoop i d alive fuel step).countP p = 0 := by
  intro fuel
  induction fuel with
  | zero => intro step; rfl
  | succ fuel ih =>
      intro step
      by_cases h : step < alive
      · rw [pollLoop, if_pos h, List.countP_append, hstep, ih (step + 1)]
      · rw [pollLoop, if_neg h]
        rfl

/-- One loop iteration launches nothing. -/
theorem stepEffs_countP_isLaunch (i : Nat) (d : String) (s : Nat) :
    (stepEffs i d s).countP isLaunch = 0 := by
  simp [stepEffs, List.countP_cons, isLaunch]

/-- One loop iteration logs nothing at ERROR level. -/
theorem stepEffs_countP_isErrorLevelLog (i : Nat) (d : String) (s : Nat) :
    (stepEffs i d s).countP isErrorLevelLog = 0 := by
  simp [stepEffs, List.countP_cons, isErrorLevelLog]

/-- One loop iteration writes nothing to the error channel. -/
theorem stepEffs_countP_errlogger (i : Nat) (d : String) (s : Nat) :
    (stepEffs i d s).countP (logsToChannel "error_logger") = 0 := by
  simp [stepEffs, List.countP_cons, logsToChannel]

/-- One loop iteration never touches the System Health Check panel. -/
theorem stepEffs_countP_healthPanel (i : Nat) (d : String) (s : Nat) :
    (stepEffs i d s).countP (targetsPanel Panel.healthCheck) = 0 := by
  simp [stepEffs, List.countP_cons, targetsPanel]

/-- One drive block launches exactly one external command. -/
theorem driveBlock_countP_isLaunch (i : Nat) (d : String) (r : DriveRun) :
    (driveBlock i d r).countP isLaunch = 1 := by
  unfold driveBlock reportEffs
  rw [List.countP_cons]
  split <;>
    simp [List.countP_append, List.countP_cons, isLaunch,
      pollLoop_countP isLaunch i d r.aliveFor (stepEffs_countP_isLaunch i d)]

/-- One drive block writes nothing to the error channel. -/
theorem driveBlock_countP_errlogger (i : Nat) (d : String) (r : DriveRun) :
    (driveBlock i d r).countP (logsToChannel "error_logger") = 0 := by
  unfold driveBlock reportEffs
  rw [List.countP_cons]
  split <;>
    simp [List.countP_append, List.countP_cons, logsToChannel,
      pollLoop_countP (logsToChannel "error_logger") i d r.aliveFor
        (stepEffs_countP_errlogger i d)]

/-- One drive block never touches the System Health Check panel. -/
theorem driveBlock_countP_healthPanel (i : Nat) (d : String) (r : DriveRun) :
    (driveBlock i d r).countP (targetsPanel Panel.healthCheck) = 0 := by
  unfold driveBlock reportEffs
  rw [List.countP_cons]
  split <;>
    simp [List.countP_append, List.countP_cons, targetsPanel,
      pollLoop_countP (targetsPanel Panel.healthCheck) i d r.aliveFor
        (stepEffs_countP_healthPanel i d)]

/-- One deletion attempt contributes no bar assignment. -/
theorem entryEffs_barSets (b : Bar) (en : FsEntry) :
    barSetsOf b (entryEffs en) = [] := by
  rcases en with ⟨p, k, oc⟩
  cases oc <;> cases k <;> rfl

/-- The whole cleanup walk contributes no bar assignment. -/
theorem cleanupWalk_barSets (b : Bar) :
    ∀ ps : List CleanupPath, barSetsOf b (concatAll (ps.map pathEffs)) = [] := by
  intro ps
  induction ps with
  | nil => rfl
  | cons p rest ih =>
      have hp : barSetsOf b (pathEffs p) = [] := by
        rcases p with ⟨name, ents⟩
        cases ents with
        | none => rfl
        | some l =>
            show barSetsOf b (concatAll (l.map entryEffs)) = []
            induction l with
            | nil => rfl
            | cons en t iht =>
                show barSetsOf b (entryEffs en ++ concatAll (t.map entryEffs)) = []
                rw [barSetsOf_append, entryEffs_barSets, iht]
                rfl
      show barSetsOf b (pathEffs p ++ concatAll (rest.map pathEffs)) = []
      rw [barSetsOf_append, hp, ih]
      rfl

/-- The drain loop applies the queued events in FIFO order and leaves the
queue empty. -/
theorem drainAll_spec : ∀ (q acc : List UIEvent), drainAll q acc = (acc ++ q, []) := by
  intro q
  induction q with
  | nil => intro acc; simp [drainAll]
  | cons e rest ih =>
      intro acc
      rw [drainAll, ih]
      simp

/-! Claim theorems. -/

/-- C1: when the privilege check reports false, both privileged
operations (disk cleanup and system health check) abort before any step:
the whole trace is exactly one error-channel log entry followed by the
enqueued restart-as-administrator message, so no external command is
launched and no filesystem entry is deleted. -/
theorem privilege_gate_aborts_before_any_step (e : Env)
    (h : is_admin e.adminProbe = false) :
    disk_cleanup e = ensureAdminEffects ∧
    start_health_check e = (ensureAdminEffects, RunTermination.abortedNoPrivilege) ∧
    ensureAdminEffects =
      [Eff.logMsg "error_logger" "ERROR" adminLogLine,
       Eff.enqueuePanelMsg Panel.healthCheck adminPanelMsg] ∧
    ensureAdminEffects.countP isLaunch = 0 ∧
    ensureAdminEffects.countP isDeleteFx = 0 := by
  refine ⟨?_, ?_, rfl, rfl, rfl⟩
  · simp [disk_cleanup, ensure_admin, h]
  · simp [start_health_check, ensure_admin, h]

/-- Witness for C1 at a concrete denied environment. -/
theorem privilege_gate_aborts_before_any_step_witness :
    is_admin (some false) = false ∧
    disk_cleanup envDenied = ensureAdminEffects ∧
    start_health_check envDenied = (ensureAdminEffects, RunTermination.abortedNoPrivilege) := by
  have h := privilege_gate_aborts_before_any_step envDenied (by decide)
  exact ⟨by decide, h.1, h.2.1⟩

/-- C2 (code evaluation at the failing input): with an elevated probe and
an environment whose second health-check command would time out if
launched, `start_health_check` stops with a `KeyError` on the registry
key "analyzeComponentStore" while building its logger dictionary, so
no command at all is launched — steps 1..k are never attempted, contrary
to the claimed run-until-step-k behaviour. -/
theorem health_check_timeout_run_never_starts :
    start_health_check envTimeoutStep2 =
      ([], RunTermination.keyError "analyzeComponentStore") ∧
    (start_health_check envTimeoutStep2).1.countP isLaunch = 0 := by
  constructor
  · decide
  · decide

/-- C3 (code evaluation at the failing input): with an elevated probe and
an environment where command 4 would exit 1 and the rest 0,
`start_health_check` stops with the same `KeyError` before any effect:
no command is launched, no per-step event reaches the health-check
panel, and the run does not reach a `Completed` terminal state. -/
theorem health_check_step4_failure_run_never_starts :
    start_health_check envCmd4Fails =
      ([], RunTermination.keyError "analyzeComponentStore") ∧
    (start_health_check envCmd4Fails).1.countP isLaunch = 0 ∧
    (start_health_check envCmd4Fails).1.countP (targetsPanel Panel.healthCheck) = 0 := by
  refine ⟨by decide, by decide, by decide⟩

/-- C4 counterexample: the worker thread running `defragment_drives`
performs direct UI-widget mutations (panel clear, bar maximum, bar
value, idle-task flush) without going through the GUI queue, refuting
the claim that no UI-owned state is ever mutated off the UI thread. -/
theorem ui_mutation_from_worker_counterexample :
    (defragment_drives envZero).filter isDirectUIMutation =
      [Eff.clearPanel Panel.defrag, Eff.setBarMax Bar.defragBar 200,
       Eff.setBarValue Bar.defragBar 100, Eff.updateIdletasks] ∧
    (defragment_drives envZero).filter isDirectUIMutation ≠ [] := by
  constructor
  · decide
  · decide

/-- C4 amended: cross-thread info-panel text updates do go through the
single-consumer queue, and `process_gui_queue` drains every queued event
in FIFO order before rescheduling itself 100 ms later; but the worker
thread can also mutate UI widgets directly without going through the
queue: every defragment run does (progress-bar values and maximum,
panel clear, idle-task flushes), while a denied disk-cleanup run and
every health-check run — denied, or elevated and killed by the
`KeyError` before any effect — perform no direct mutation. -/
theorem ui_queue_fifo_drain_and_direct_mutations (q : List UIEvent) (e : Env) :
    process_gui_queue q = ((q, []), 100) ∧
    (defragment_drives e).filter isDirectUIMutation ≠ [] ∧
    (start_health_check e).1.filter isDirectUIMutation = [] ∧
    (is_admin e.adminProbe = false →
      (disk_cleanup e).filter isDirectUIMutation = []) := by
  refine ⟨?_, ?_, ?_, ?_⟩
  · unfold process_gui_queue
    rw [drainAll_spec]
    rfl
  · intro hcontra
    have hm : Eff.clearPanel Panel.defrag ∈ defragment_drives e := by
      simp [defragment_drives]
    have hf : Eff.clearPanel Panel.defrag ∈
        (defragment_drives e).filter isDirectUIMutation :=
      List.mem_filter.2 ⟨hm, by decide⟩
    rw [hcontra] at hf
    exact absurd hf (List.not_mem_nil _)
  · have hk : firstMissingLoggerKey = some "analyzeComponentStore" := by decide
    cases hb : is_admin e.adminProbe
    all_goals simp [start_health_check, ensure_admin, hb, hk]
    all_goals decide
  · intro h
    simp [disk_cleanup, ensure_admin, h]
    decide

/-- Witness for C4's amended statement at a concrete queue, a denied
environment, and an elevated environment. -/
theorem ui_queue_fifo_drain_witness :
    process_gui_queue
        [UIEvent.updatePanel Panel.healthCheck "a", UIEvent.resetBarDelay Bar.healthBar 1000] =
      (([UIEvent.updatePanel Panel.healthCheck "a", UIEvent.resetBarDelay Bar.healthBar 1000], []), 100) ∧
    (start_health_check envZero).1.filter isDirectUIMutation = [] ∧
    (disk_cleanup envDenied).filter isDirectUIMutation = [] := by
  have h := ui_queue_fifo_drain_and_direct_mutations
    [UIEvent.updatePanel Panel.healthCheck "a", UIEvent.resetBarDelay Bar.healthBar 1000]
    envDenied
  have h2 := ui_queue_fifo_drain_and_direct_mutations [] envZero
  exact ⟨h.1, h2.2.2.1, h.2.2.2 (by decide)⟩

/-- Looking up a key right after updating it returns the new value. -/
theorem lookup_updFile (fs : List (String × List String)) (f : String) (ls : List String) :
    List.lookup f (updFile fs f ls) = some ls := by
  induction fs with
  | nil => simp [updFile, List.lookup]
  | cons p rest ih =>
      rcases p with ⟨g, old⟩
      by_cases hg : g = f
      · subst hg
        simp [updFile, List.lookup]
      · have hbe : (f == g) = false := by
          simp [Ne.symm hg]
        simp [updFile, hg, List.lookup, hbe, ih]

/-- A write through an open channel whose backing file is empty leaves
exactly the written line in that file. -/
theorem writeLog_lookup (st : SinkState) (c f line : String)
    (hc : st.handlers.contains c = true)
    (hf : loggerSpecs.lookup c = some f)
    (he : st.files.lookup f = some []) :
    ((writeLog c line st).files.lookup f) = some [line] := by
  simp only [writeLog, hc, hf, he, if_true, Option.getD_some, List.nil_append]
  exact lookup_updFile st.files f [line]

set_option maxHeartbeats 1600000 in
/-- C5: clearing all logs closes every handler before the files are
removed, reinitializes every known channel, and a subsequent write to
any known channel leaves that channel's backing file containing exactly
the newly written line. -/
theorem clear_all_then_write (s : SinkState) (c f ts lvl msg : String)
    (h : (c, f) ∈ loggerSpecs) :
    ((writeLog c (fmtLine ts lvl msg) (clear_all_logs s)).files.lookup f) =
      some [fmtLine ts lvl msg] := by
  have hcs : clear_all_logs s = initLoggers ⟨[], []⟩ := rfl
  have hclean : initLoggers ⟨[], []⟩ =
      ⟨[("system_health_check.log", []), ("disk_cleanup.log", []),
        ("defragment.log", []), ("checkhealth.log", []), ("scanhealth.log", []),
        ("Restorehealth.log", []), ("sfc_scannow.log", []),
        ("AnalyzeComponentStore.log", []), ("StartComponentCleanup.log", []),
        ("error.log", [])],
       ["system_health_check", "disk_cleanup", "defragment", "checkhealth",
        "scanhealth", "restorehealth", "sfc_scannow", "analyzecomponentstore",
        "startcomponentcleanup", "error_logger"]⟩ := by decide
  have hl : loggerSpecs =
      [("system_health_check", "system_health_check.log"),
       ("disk_cleanup", "disk_cleanup.log"),
       ("defragment", "defragment.log"),
       ("checkhealth", "checkhealth.log"),
       ("scanhealth", "scanhealth.log"),
       ("restorehealth", "Restorehealth.log"),
       ("sfc_scannow", "sfc_scannow.log"),
       ("analyzecomponentstore", "AnalyzeComponentStore.log"),
       ("startcomponentcleanup", "StartComponentCleanup.log"),
       ("error_logger", "error.log")] := by decide
  rw [hcs, hclean]
  rw [hl] at h
  simp only [List.mem_cons, List.not_mem_nil, or_false] at h
  rcases h with h | h | h | h | h | h | h | h | h | h <;>
    (rw [show c = _ from congrArg Prod.fst h, show f = _ from congrArg Prod.snd h];
     exact writeLog_lookup _ _ _ _ (by decide) (by rw [hl]; decide) (by decide))

/-- Witness for C5 at a concrete pre-state and channel. -/
theorem clear_all_then_write_witness :
    (("disk_cleanup", "disk_cleanup.log") ∈ loggerSpecs) ∧
    ((writeLog "disk_cleanup" (fmtLine "ts0" "INFO" "hello")
        (clear_all_logs ⟨[("disk_cleanup.log", ["old line"])], ["disk_cleanup"]⟩)).files.lookup
      "disk_cleanup.log") = some [fmtLine "ts0" "INFO" "hello"] := by
  have h := clear_all_then_write
    ⟨[("disk_cleanup.log", ["old line"])], ["disk_cleanup"]⟩
    "disk_cleanup" "disk_cleanup.log" "ts0" "INFO" "hello" (by decide)
  exact ⟨by decide, h⟩

/-- C6: the synthetic-progress loop of a drive-optimization step emits
exactly `min aliveFor 100` progress assignments — never more than the
number of polling intervals the child was alive for — and the drive
block reports on the child's true return code: it logs an ERROR line
exactly when the true return code is non-zero. -/
theorem defrag_synthetic_progress (i : Nat) (d : String) (r : DriveRun) :
    (barSetsOf Bar.defragBar (pollLoop i d r.aliveFor 100 0)).length =
      min r.aliveFor 100 ∧
    min r.aliveFor 100 ≤ r.aliveFor ∧
    (driveBlock i d r).countP isErrorLevelLog =
      (if r.returncode = 0 then 0 else 1) := by
  refine ⟨?_, Nat.min_le_left .., ?_⟩
  · rw [pollLoop_barSets, List.length_map, List.length_range']
    omega
  · unfold driveBlock reportEffs
    rw [List.countP_cons]
    split <;>
      simp [List.countP_append, List.countP_cons, isErrorLevelLog,
        pollLoop_countP isErrorLevelLog i d r.aliveFor
          (stepEffs_countP_isErrorLevelLog i d)]

/-- Witness for C6 (it has no Prop hypothesis, but the instance documents
the bound at a concrete input: a child alive for 3 intervals yields
exactly 3 synthetic assignments and a clean report). -/
theorem defrag_synthetic_progress_witness :
    (barSetsOf Bar.defragBar (pollLoop 0 "C:" 3 100 0)).length = min 3 100 ∧
    min 3 100 ≤ 3 ∧
    (driveBlock 0 "C:" ⟨3, 0, ""⟩).countP isErrorLevelLog = 0 := by
  have h := defrag_synthetic_progress 0 "C:" ⟨3, 0, ""⟩
  exact ⟨h.1, h.2.1, h.2.2⟩

/-- C7 counterexample: for a defragment run the bar maximum is 200, yet
the terminal transition sets the value to the constant 100, so the bar
does not reach 100% of its maximum at the terminal transition. -/
theorem progress_terminal_value_counterexample :
    barMaxesOf Bar.defragBar (defragment_drives envZero) = [(200 : ℚ)] ∧
    (barSetsOf Bar.defragBar (defragment_drives envZero)).getLast? = some (100 : ℚ) ∧
    (100 : ℚ) ≠ (200 : ℚ) := by
  refine ⟨by decide, by decide, by decide⟩

/-- C7 amended: the defragment bar (maximum 200) advances by one unit per
synthetic step while each child is alive, the terminal transition sets
the value to the constant 100 (half the maximum), and the bar reset is
enqueued with a 1000 ms delay; for an elevated disk-cleanup run the only
bar assignment is the terminal constant 100 followed by the 1000 ms
reset (no per-step advancement). -/
theorem progress_bar_amended (e : Env) :
    barSetsOf Bar.defragBar (defragment_drives e) =
      ((List.range' 1 (min e.defrag.driveC.aliveFor 100)).map (fun n : ℕ => (n : ℚ))) ++
      ((List.range' 101 (min e.defrag.driveD.aliveFor 100)).map (fun n : ℕ => (n : ℚ))) ++
      [(100 : ℚ)] ∧
    barMaxesOf Bar.defragBar (defragment_drives e) = [(200 : ℚ)] ∧
    Eff.enqueueResetBar Bar.defragBar 1000 ∈ defragment_drives e ∧
    (is_admin e.adminProbe = true →
      barSetsOf Bar.cleanupBar (disk_cleanup e) = [(100 : ℚ)] ∧
      Eff.enqueueResetBar Bar.cleanupBar 1000 ∈ disk_cleanup e) := by
  refine ⟨?_, ?_, ?_, ?_⟩
  · have hpre : barSetsOf Bar.defragBar
        [Eff.clearPanel Panel.defrag,
         Eff.enqueuePanelMsg Panel.defrag "Initialized Defragment and Optimize Drives",
         Eff.setBarMax Bar.defragBar 200,
         Eff.logMsg "defragment" "INFO" "Starting Defragmentation and Optimization"] = [] := rfl
    have hsuf : barSetsOf Bar.defragBar
        [Eff.logMsg "defragment" "INFO" "Defragmentation and Optimization Completed",
         Eff.enqueuePanelMsg Panel.defrag "Defragmentation and optimization completed.",
         Eff.setBarValue Bar.defragBar 100,
         Eff.updateIdletasks,
         Eff.enqueueResetBar Bar.defragBar 1000] = [(100 : ℚ)] := rfl
    show barSetsOf Bar.defragBar
        (_ ++ driveBlock 0 "C:" e.defrag.driveC ++ driveBlock 1 "D:" e.defrag.driveD ++ _) = _
    rw [barSetsOf_append, barSetsOf_append, barSetsOf_append,
      driveBlock_barSets, driveBlock_barSets, hpre, hsuf]
    norm_num [List.append_assoc]
  · show barMaxesOf Bar.defragBar
        (_ ++ driveBlock 0 "C:" e.defrag.driveC ++ driveBlock 1 "D:" e.defrag.driveD ++ _) = _
    rw [barMaxesOf_append, barMaxesOf_append, barMaxesOf_append,
      driveBlock_barMaxes, driveBlock_barMaxes]
    rfl
  · simp [defragment_drives]
  · intro h
    constructor
    · show barSetsOf Bar.cleanupBar (disk_cleanup e) = [(100 : ℚ)]
      simp only [disk_cleanup, ensure_admin, h, if_true, List.nil_append]
      rw [barSetsOf_append, barSetsOf_append, cleanupWalk_barSets]
      rfl
    · simp [disk_cleanup, ensure_admin, h]

/-- Witness for C7's amended statement at a concrete elevated
environment. -/
theorem progress_bar_amended_witness :
    barSetsOf Bar.defragBar (defragment_drives envZero) = [(100 : ℚ)] ∧
    is_admin envZero.adminProbe = true ∧
    barSetsOf Bar.cleanupBar (disk_cleanup envZero) = [(100 : ℚ)] := by
  have h := progress_bar_amended envZero
  have h4 := h.2.2.2 (by decide)
  refine ⟨?_, by decide, h4.1⟩
  have h1 := h.1
  simpa using h1

/-- C8: the elevated cleanup run over a directory with three deletable
entries, one in-use entry and one permission-denied entry tallies 3/1/1,
reports exactly "Deleted: 3, In Use: 1, Permission Denied: 1" in the
terminal summary, writes one individual log line per entry to the
cleanup channel, and each tally is incremented independently, entry by
entry, by exactly its own category. -/
theorem disk_cleanup_tallies_scenario :
    (Eff.enqueuePanelMsg Panel.diskCleanup
       "Disk cleanup completed\nDeleted: 3\nIn Use: 1\nPermission Denied: 1" ∈
         disk_cleanup envCleanup) ∧
    (deletedOf (allEntriesOf envCleanup.cleanup)).length = 3 ∧
    (inUseOf (allEntriesOf envCleanup.cleanup)).length = 1 ∧
    (permDeniedOf (allEntriesOf envCleanup.cleanup)).length = 1 ∧
    Eff.logMsg "disk_cleanup" "INFO" "Deleted file: t1.tmp" ∈ disk_cleanup envCleanup ∧
    Eff.logMsg "disk_cleanup" "INFO" "Deleted file: t2.tmp" ∈ disk_cleanup envCleanup ∧
    Eff.logMsg "disk_cleanup" "INFO" "Deleted file: t3.tmp" ∈ disk_cleanup envCleanup ∧
    Eff.logMsg "disk_cleanup" "WARNING" "In use by another program: locked.tmp" ∈
      disk_cleanup envCleanup ∧
    Eff.logMsg "disk_cleanup" "ERROR" "Permission denied for secret.tmp" ∈
      disk_cleanup envCleanup ∧
    (∀ (en : FsEntry) (rest : List FsEntry),
      (deletedOf (en :: rest)).length =
        (if en.outcome = DelOutcome.deleted then 1 else 0) + (deletedOf rest).length ∧
      (inUseOf (en :: rest)).length =
        (if en.outcome = DelOutcome.inUse then 1 else 0) + (inUseOf rest).length ∧
      (permDeniedOf (en :: rest)).length =
        (if en.outcome = DelOutcome.permissionDenied then 1 else 0) +
          (permDeniedOf rest).length) := by
  refine ⟨by decide, by decide, by decide, by decide, by decide, by decide,
    by decide, by decide, by decide, ?_⟩
  intro en rest
  rcases en with ⟨p, k, oc⟩
  cases oc <;> simp [deletedOf, inUseOf, permDeniedOf, List.filterMap_cons] <;> omega

/-- C9: the defragment-and-optimize operation performs no privilege
check: its trace does not depend on the privilege probe, it launches
exactly its two external defrag commands, runs to its completion log,
and never produces a privilege-denied abort (nothing on the error
channel, nothing on the health-check panel where denials are posted). -/
theorem defrag_runs_without_privilege_gate (e : Env) (b : Option Bool) :
    defragment_drives { e with adminProbe := b } = defragment_drives e ∧
    (defragment_drives e).countP isLaunch = 2 ∧
    Eff.logMsg "defragment" "INFO" "Defragmentation and Optimization Completed" ∈
      defragment_drives e ∧
    (defragment_drives e).countP (logsToChannel "error_logger") = 0 ∧
    (defragment_drives e).countP (targetsPanel Panel.healthCheck) = 0 := by
  refine ⟨rfl, ?_, ?_, ?_, ?_⟩
  · simp [defragment_drives, List.countP_append, List.countP_cons,
      driveBlock_countP_isLaunch, isLaunch]
  · simp [defragment_drives]
  · simp [defragment_drives, List.countP_append, List.countP_cons,
      driveBlock_countP_errlogger, logsToChannel]
  · simp [defragment_drives, List.countP_append, List.countP_cons,
      driveBlock_countP_healthPanel, targetsPanel]

/-- C10: a denied disk-cleanup run never touches the Disk Cleanup panel:
the privilege-denial message is enqueued for the System Health Check
panel instead, whatever operation was denied. -/
theorem privilege_denial_routed_to_health_panel (e : Env)
    (h : is_admin e.adminProbe = false) :
    (disk_cleanup e).countP (targetsPanel Panel.diskCleanup) = 0 ∧
    Eff.enqueuePanelMsg Panel.healthCheck adminPanelMsg ∈ disk_cleanup e := by
  constructor
  · simp [disk_cleanup, ensure_admin, h]
    decide
  · simp [disk_cleanup, ensure_admin, h, ensureAdminEffects]

/-- Witness for C10 at a concrete denied environment. -/
theorem privilege_denial_routed_to_health_panel_witness :
    is_admin envDenied.adminProbe = false ∧
    (disk_cleanup envDenied).countP (targetsPanel Panel.diskCleanup) = 0 ∧
    Eff.enqueuePanelMsg Panel.healthCheck adminPanelMsg ∈ disk_cleanup envDenied := by
  have h := privilege_denial_routed_to_health_panel envDenied (by decide)
  exact ⟨by decide, h.1, h.2⟩

end Toolkit
